import Mathlib

/-!
Verification of the environment-configuration loader of LabCo/lab-env-utils.

The repository has two source files, both defining a `PartialEnv` class with
string and numeric environment-variable resolvers:
  * `src/lib/envUtils.ts` — the current version, with `...OrNull` core
    resolvers and required wrappers;
  * `src/unnamed/part_000` — an older version with slightly divergent logic.

We embed both shallowly.  A raw environment is a map from variable names to
optional string values.  The resolvers' only side effect is logging through
a winston logger; we model each `logger.warn`/`logger.error` call as an
emitted notification carrying the severity and the exact message string.
Thrown `Error(msg)` values are modelled as `Except.error msg`.

JavaScript specifics that the code relies on are modelled explicitly:
  * `parseInt(s)` (radix argument omitted) per ECMA-262: leading whitespace
    is skipped, an optional sign is consumed, a leading `0x`/`0X` switches
    the radix to 16, then the longest leading run of radix digits is read;
    if there is none the result is `NaN` (modelled as `none`).
  * In the old file's numeric resolver the guard `value == null` does not
    catch `NaN` (in JS, `NaN == null` is `false`), and `NaN < m` / `NaN > m`
    are both `false`, so an unparseable value flows through the bound
    checks and is returned as `NaN`.  We model that returned JS number as
    `Option Int`, `none` standing for `NaN`.
  * Template interpolation `${x}` renders a number in decimal, `null` as
    the string `"null"`, and a string as itself.

The TypeScript `envVarName == null` guards are unrepresentable here (a Lean
`String` is never null) and are dropped.
-/

/-- Severity of a logging call: `logger.warn` or `logger.error`. -/
inductive Severity where
  | warn
  | error
  deriving DecidableEq, Repr

/-- One logging call made during a resolution: severity plus the exact
message string passed to the logger. -/
structure Notification where
  severity : Severity
  message : String
  deriving DecidableEq, Repr

/-- A raw environment: `process.env`, a map from variable name to optional
string value. -/
abbrev RawEnv := String → Option String

/-- Characters skipped by JavaScript `parseInt` before parsing. -/
def jsWhitespace (c : Char) : Bool :=
  c = ' ' || c = '\t' || c = '\n' || c = '\r' || c = '\x0b' || c = '\x0c'

/-- Value of `c` as a digit in base `radix` (2–36 digits: 0–9, a–z, A–Z),
or `none` when `c` is not a digit of that base. -/
def digitVal? (radix : Nat) (c : Char) : Option Nat :=
  let v? : Option Nat :=
    if '0' ≤ c ∧ c ≤ '9' then some (c.toNat - '0'.toNat)
    else if 'a' ≤ c ∧ c ≤ 'z' then some (c.toNat - 'a'.toNat + 10)
    else if 'A' ≤ c ∧ c ≤ 'Z' then some (c.toNat - 'A'.toNat + 10)
    else none
  match v? with
  | some d => if d < radix then some d else none
  | none => none

/-- Accumulate the longest leading run of base-`radix` digits of `cs` onto
`acc`, stopping at the first non-digit. -/
def takeDigits (radix : Nat) (cs : List Char) (acc : Nat) : Nat :=
  match cs with
  | [] => acc
  | c :: rest =>
    match digitVal? radix c with
    | some d => takeDigits radix rest (acc * radix + d)
    | none => acc

/-- JavaScript `parseInt(s)` with the radix argument omitted (ECMA-262):
skip leading whitespace, consume an optional sign, treat a leading
`0x`/`0X` as switching to base 16 (base 10 otherwise), then parse the
longest leading run of digits of that base; `none` models `NaN` (no
digits found). -/
def jsParseInt (s : String) : Option Int :=
  let cs := s.data.dropWhile jsWhitespace
  let signed : Int × List Char :=
    match cs with
    | '-' :: rest => (-1, rest)
    | '+' :: rest => (1, rest)
    | _ => (1, cs)
  let based : Nat × List Char :=
    match signed.2 with
    | '0' :: 'x' :: rest => (16, rest)
    | '0' :: 'X' :: rest => (16, rest)
    | _ => (10, signed.2)
  match based.2 with
  | [] => none
  | c :: _ =>
    match digitVal? based.1 c with
    | some _ => some (signed.1 * (takeDigits based.1 based.2 0 : Nat))
    | none => none

/-- JavaScript template rendering `${x}` of a `number | null` value:
decimal for a number, `"null"` for null. -/
def jsShowNumOpt : Option Int → String
  | none => "null"
  | some i => toString i

/-- JavaScript template rendering `${x}` of a `string | null` value:
the string itself, `"null"` for null. -/
def jsShowStrOpt : Option String → String
  | none => "null"
  | some s => s

/-- Message of the error thrown when a variable is absent and required:
`${envVarName} must be defined`. -/
def mustBeDefinedMsg (envVarName : String) : String :=
  envVarName ++ " must be defined"

/-- Message logged and thrown when a present value is outside the allowed
set: `unsupported NODE_ENV value ${valueStr}`.  Note the literal
`NODE_ENV` in the source template: the actual variable name is not
interpolated. -/
def unsupportedMsg (valueStr : String) : String :=
  "unsupported NODE_ENV value " ++ valueStr

/-- Message logged when a default is substituted:
`${envVarName} not defined, using default ${default}` with `default`
already rendered to a string. -/
def defaultUsedMsg (envVarName shown : String) : String :=
  (envVarName ++ " not defined, using default ") ++ shown

/-- Message of the error thrown when a present value does not parse:
`${envVarName} value ${valueStr} is not a number`. -/
def notANumberMsg (envVarName valueStr : String) : String :=
  ((envVarName ++ " value ") ++ valueStr) ++ " is not a number"

/-- Message of the error thrown when a parsed value is below the minimum:
`${envVarName} value ${valueStr} must be at least ${min}`. -/
def belowMinMsg (envVarName valueStr : String) (m : Int) : String :=
  (((envVarName ++ " value ") ++ valueStr) ++ " must be at least ") ++ toString m

/-- Message of the error thrown when a parsed value is above the maximum:
`${envVarName} value ${valueStr} must be no greater than ${max}`. -/
def aboveMaxMsg (envVarName valueStr : String) (m : Int) : String :=
  (((envVarName ++ " value ") ++ valueStr) ++ " must be no greater than ") ++ toString m

/-- First bound violation of `value`, checked exactly as both numeric
resolvers do: the minimum first (`value < min`), then the maximum
(`value > max`); `none` when no configured bound is violated. -/
def boundMsg? (envVarName valueStr : String) (value : Int)
    (minO maxO : Option Int) : Option String :=
  match minO with
  | some m =>
    if value < m then some (belowMinMsg envVarName valueStr m)
    else
      match maxO with
      | some M => if value > M then some (aboveMaxMsg envVarName valueStr M) else none
      | none => none
  | none =>
    match maxO with
    | some M => if value > M then some (aboveMaxMsg envVarName valueStr M) else none
    | none => none

namespace EnvUtils

/-- Options of `parseEnvAsStringOrNull` in `src/lib/envUtils.ts`:
`{ defaultValue?: T | null, allowed?: Set<T> }`.  The outer `Option`
is `undefined` vs present; the inner one is `null` vs a string. -/
structure StrOptions where
  defaultValue : Option (Option String) := none
  allowed : Option (List String) := none
  deriving DecidableEq, Repr

/-- Options of `parseEnvAsNumberOrNull` in `src/lib/envUtils.ts`:
`{ defaultValue?: number | null, max?: number, min?: number }`. -/
structure NumOptions where
  defaultValue : Option (Option Int) := none
  max : Option Int := none
  min : Option Int := none
  deriving DecidableEq, Repr

/-- `PartialEnv.parseEnvAsStringOrNull` of `src/lib/envUtils.ts`
(lines 59–76): absent plus a configured default (`!== undefined`, so an
explicit `null` counts) logs a warning and returns the default; absent
otherwise throws `must be defined`; a present value outside a configured
allowed set logs an error and throws; otherwise the raw string is
returned unchanged. -/
def parseEnvAsStringOrNull (env : RawEnv) (envVarName : String)
    (options : Option StrOptions) : Except String (Option String) × List Notification :=
  match env envVarName, options with
  | none, some o =>
    match o.defaultValue with
    | some d => (.ok d, [⟨.warn, defaultUsedMsg envVarName (jsShowStrOpt d)⟩])
    | none => (.error (mustBeDefinedMsg envVarName), [])
  | none, none => (.error (mustBeDefinedMsg envVarName), [])
  | some valueStr, _ =>
    match options.bind fun o => o.allowed with
    | some allowed =>
      if !(allowed.contains valueStr) then
        (.error (unsupportedMsg valueStr), [⟨.error, unsupportedMsg valueStr⟩])
      else (.ok (some valueStr), [])
    | none => (.ok (some valueStr), [])

/-- `PartialEnv.parseEnvAsString` of `src/lib/envUtils.ts` (lines 50–57):
the required wrapper, turning a `null` result of the `OrNull` resolver
into a `must be defined` error. -/
def parseEnvAsString (env : RawEnv) (envVarName : String)
    (options : Option StrOptions) : Except String String × List Notification :=
  match parseEnvAsStringOrNull env envVarName options with
  | (.ok (some v), ns) => (.ok v, ns)
  | (.ok none, ns) => (.error (mustBeDefinedMsg envVarName), ns)
  | (.error e, ns) => (.error e, ns)

/-- `PartialEnv.parseEnvAsNumberOrNull` of `src/lib/envUtils.ts`
(lines 86–109): absent plus a configured default logs a warning and
returns the default; absent otherwise throws; a present value is parsed
with `parseInt` (NaN throws `is not a number`), then checked against the
configured minimum and maximum. -/
def parseEnvAsNumberOrNull (env : RawEnv) (envVarName : String)
    (options : Option NumOptions) : Except String (Option Int) × List Notification :=
  match env envVarName, options with
  | none, some o =>
    match o.defaultValue with
    | some d => (.ok d, [⟨.warn, defaultUsedMsg envVarName (jsShowNumOpt d)⟩])
    | none => (.error (mustBeDefinedMsg envVarName), [])
  | none, none => (.error (mustBeDefinedMsg envVarName), [])
  | some valueStr, _ =>
    match jsParseInt valueStr with
    | none => (.error (notANumberMsg envVarName valueStr), [])
    | some value =>
      match boundMsg? envVarName valueStr value
          (options.bind fun o => o.min) (options.bind fun o => o.max) with
      | some e => (.error e, [])
      | none => (.ok (some value), [])

/-- `PartialEnv.parseEnvAsNumber` of `src/lib/envUtils.ts` (lines 78–84):
the required wrapper over `parseEnvAsNumberOrNull`. -/
def parseEnvAsNumber (env : RawEnv) (envVarName : String)
    (options : Option NumOptions) : Except String Int × List Notification :=
  match parseEnvAsNumberOrNull env envVarName options with
  | (.ok (some v), ns) => (.ok v, ns)
  | (.ok none, ns) => (.error (mustBeDefinedMsg envVarName), ns)
  | (.error e, ns) => (.error e, ns)

end EnvUtils

namespace Part000

/-- Options of `parseEnvAsString` in `src/unnamed/part_000`:
`{ defaultValue?: T, allowed?: Set<T> }` (no explicit `null` default;
the guard is `!= null`). -/
structure StrOptions where
  defaultValue : Option String := none
  allowed : Option (List String) := none
  deriving DecidableEq, Repr

/-- Options of `parseEnvAsNumber` in `src/unnamed/part_000`:
`{ defaultValue?: number, max?: number, min?: number }` (the options
object itself is required). -/
structure NumOptions where
  defaultValue : Option Int := none
  max : Option Int := none
  min : Option Int := none
  deriving DecidableEq, Repr

/-- `PartialEnv.parseEnvAsString` of `src/unnamed/part_000` (lines 50–67):
like the current version, but the default guard is `!= null` and there is
no `OrNull` split. -/
def parseEnvAsString (env : RawEnv) (envVarName : String)
    (options : Option StrOptions) : Except String String × List Notification :=
  match env envVarName, options with
  | none, some o =>
    match o.defaultValue with
    | some d => (.ok d, [⟨.warn, defaultUsedMsg envVarName d⟩])
    | none => (.error (mustBeDefinedMsg envVarName), [])
  | none, none => (.error (mustBeDefinedMsg envVarName), [])
  | some valueStr, _ =>
    match options.bind fun o => o.allowed with
    | some allowed =>
      if !(allowed.contains valueStr) then
        (.error (unsupportedMsg valueStr), [⟨.error, unsupportedMsg valueStr⟩])
      else (.ok valueStr, [])
    | none => (.ok valueStr, [])

/-- `PartialEnv.parseEnvAsNumber` of `src/unnamed/part_000` (lines 69–96).
The guard after `parseInt` is only `value == null`, which in JavaScript is
`false` for `NaN`; and `NaN < min` / `NaN > max` are both `false`.  So an
unparseable present value passes every check and `NaN` is returned: we
model the returned JS number as `Option Int` with `none` for `NaN`. -/
def parseEnvAsNumber (env : RawEnv) (envVarName : String)
    (options : NumOptions) : Except String (Option Int) × List Notification :=
  match env envVarName with
  | none =>
    match options.defaultValue with
    | some d => (.ok (some d), [⟨.warn, defaultUsedMsg envVarName (toString d)⟩])
    | none => (.error (mustBeDefinedMsg envVarName), [])
  | some valueStr =>
    match jsParseInt valueStr with
    | none => (.ok none, [])
    | some value =>
      match boundMsg? envVarName valueStr value options.min options.max with
      | some e => (.error e, [])
      | none => (.ok (some value), [])

end Part000

/-- Modelled from the spec: section 4's description of the parse step as
"parse as a base-10 integer using leading-prefix parsing semantics (parse
the longest valid leading numeric substring)".  Used only to compare the
spec's wording against the source's `parseInt`-based behaviour. -/
def base10LeadingParse (s : String) : Option Int :=
  match s.data with
  | [] => none
  | c :: _ =>
    if c.isDigit then some (takeDigits 10 s.data 0 : Nat) else none

/-- Boolean test that `needle` occurs as a contiguous run inside `hay`. -/
def substrB (needle hay : List Char) : Bool :=
  match hay with
  | [] => needle.isEmpty
  | _ :: t => needle.isPrefixOf hay || substrB needle t

/-- Proposition that the string `needle` occurs contiguously inside `hay`;
used to state that an error or log message identifies a name or value. -/
abbrev substrOf (needle hay : String) : Prop := substrB needle.data hay.data = true

theorem isPrefixOf_append_self (l t : List Char) : l.isPrefixOf (l ++ t) = true := by
  induction l with
  | nil => simp [List.isPrefixOf]
  | cons c cs ih => simp [List.isPrefixOf, ih]

theorem substrB_here (n t : List Char) : substrB n (n ++ t) = true := by
  cases n with
  | nil =>
    cases t with
    | nil => simp [substrB, List.isEmpty]
    | cons c t' => simp [substrB, List.isPrefixOf]
  | cons c cs => simp [substrB, isPrefixOf_append_self]

theorem substrB_extend (pre n t : List Char) : substrB n (pre ++ (n ++ t)) = true := by
  induction pre with
  | nil => simpa using substrB_here n t
  | cons c cs ih => simp [substrB, ih]

theorem string_data_append (a b : String) : (a ++ b).data = a.data ++ b.data := rfl

theorem substrOf_of_data (needle hay : String) (pre post : List Char)
    (e : hay.data = pre ++ (needle.data ++ post)) : substrOf needle hay := by
  simp only [substrOf, e]
  exact substrB_extend pre needle.data post

/-- Sanity: the loose parse accepts a trailing garbage suffix. -/
theorem jsParseInt_loose : jsParseInt "8080abc" = some 8080 := by decide

/-- Sanity: a value with no leading digits does not parse. -/
theorem jsParseInt_nan : jsParseInt "abc" = none := by decide

/-- Sanity: with the radix argument omitted, a `0x` prefix parses as hex. -/
theorem jsParseInt_hex : jsParseInt "0x1A" = some 26 := by decide

theorem substrOf_defaultUsed_name (n s : String) : substrOf n (defaultUsedMsg n s) :=
  substrOf_of_data n _ [] (" not defined, using default ".data ++ s.data)
    (by simp [defaultUsedMsg, string_data_append, List.append_assoc])

theorem substrOf_defaultUsed_value (n s : String) : substrOf s (defaultUsedMsg n s) :=
  substrOf_of_data s _ (n.data ++ " not defined, using default ".data) []
    (by simp [defaultUsedMsg, string_data_append, List.append_assoc])

theorem substrOf_mustBeDefined_name (n : String) : substrOf n (mustBeDefinedMsg n) :=
  substrOf_of_data n _ [] " must be defined".data
    (by simp [mustBeDefinedMsg, string_data_append])

theorem substrOf_notANumber_name (n v : String) : substrOf n (notANumberMsg n v) :=
  substrOf_of_data n _ [] (" value ".data ++ v.data ++ " is not a number".data)
    (by simp [notANumberMsg, string_data_append, List.append_assoc])

theorem substrOf_notANumber_value (n v : String) : substrOf v (notANumberMsg n v) :=
  substrOf_of_data v _ (n.data ++ " value ".data) " is not a number".data
    (by simp [notANumberMsg, string_data_append, List.append_assoc])

/-- Claim C1 as stated is false on the code: with `PORT=0x1A` the resolver
returns `26` (hex, per `parseInt` with no radix argument), while base-10
leading-prefix parsing of `"0x1A"` yields `0`. -/
theorem C1_counterexample :
    EnvUtils.parseEnvAsNumberOrNull (fun n => if n = "PORT" then some "0x1A" else none)
        "PORT" none
      = (.ok (some 26), [])
  ∧ base10LeadingParse "0x1A" = some 0
  ∧ (26 : Int) ≠ 0 := by
  refine ⟨rfl, by decide, by decide⟩

/-- Claim C1 (amended): a present raw value is parsed with JavaScript
`parseInt` semantics (leading whitespace skipped, optional sign, a
`0x`/`0X` prefix switching to base 16, otherwise the longest leading run
of base-10 digits, so `"8080abc"` resolves to `8080`); when no digits are
found the resolution fails with the not-a-number error, whose message
carries the variable name and the raw value. -/
theorem C1_parse_semantics (env : RawEnv) (envVarName raw : String)
    (options : Option EnvUtils.NumOptions) (h : env envVarName = some raw) :
    (jsParseInt raw = none →
      EnvUtils.parseEnvAsNumberOrNull env envVarName options
        = (.error (notANumberMsg envVarName raw), []))
  ∧ (∀ v, jsParseInt raw = some v →
      (options.bind fun o => o.min) = none → (options.bind fun o => o.max) = none →
      EnvUtils.parseEnvAsNumberOrNull env envVarName options = (.ok (some v), []))
  ∧ substrOf envVarName (notANumberMsg envVarName raw)
  ∧ substrOf raw (notANumberMsg envVarName raw) := by
  refine ⟨?_, ?_, substrOf_notANumber_name envVarName raw, substrOf_notANumber_value envVarName raw⟩
  · intro hn
    cases options with
    | none => simp [EnvUtils.parseEnvAsNumberOrNull, h, hn]
    | some o => simp [EnvUtils.parseEnvAsNumberOrNull, h, hn]
  · intro v hv hmin hmax
    cases options with
    | none => simp [EnvUtils.parseEnvAsNumberOrNull, h, hv, boundMsg?]
    | some o =>
      simp only [Option.some_bind] at hmin hmax
      simp [EnvUtils.parseEnvAsNumberOrNull, h, hv, boundMsg?, hmin, hmax]

/-- Witness for C1 at `PORT=8080abc` with no constraints: resolves to 8080. -/
theorem C1_parse_semantics_witness :
    EnvUtils.parseEnvAsNumberOrNull (fun n => if n = "PORT" then some "8080abc" else none)
        "PORT" none
      = (.ok (some 8080), []) :=
  (C1_parse_semantics _ "PORT" "8080abc" none (by decide)).2.1 8080 (by decide) rfl rfl

/-- Claim C2: when a numeric variable is absent and a default is
configured, the default is returned (with the default-used warning) and
the configured min/max bounds are not applied to it — the conclusion does
not depend on the `min`/`max` fields of the options at all. -/
theorem C2_default_bypasses_bounds (env : RawEnv) (envVarName : String)
    (o : EnvUtils.NumOptions) (d : Option Int)
    (h1 : env envVarName = none) (h2 : o.defaultValue = some d) :
    EnvUtils.parseEnvAsNumberOrNull env envVarName (some o)
      = (.ok d, [⟨.warn, defaultUsedMsg envVarName (jsShowNumOpt d)⟩]) := by
  simp [EnvUtils.parseEnvAsNumberOrNull, h1, h2]

/-- Witness for C2: default 5 with `min: 10` configured still resolves to 5. -/
theorem C2_default_bypasses_bounds_witness :
    EnvUtils.parseEnvAsNumberOrNull (fun _ => none) "PORT"
        (some ⟨some (some 5), none, some 10⟩)
      = (.ok (some 5), [⟨.warn, defaultUsedMsg "PORT" (jsShowNumOpt (some 5))⟩]) :=
  C2_default_bypasses_bounds (fun _ => none) "PORT" ⟨some (some 5), none, some 10⟩
    (some 5) rfl rfl

/-- Claim C3: for a string or numeric spec with a configured default and an
absent variable, the resolution returns exactly the configured default and
emits exactly one warning notification, whose message contains the
variable name and the rendered default value. -/
theorem C3_default_used (env : RawEnv) (envVarName : String)
    (so : EnvUtils.StrOptions) (no : EnvUtils.NumOptions)
    (ds : Option String) (dn : Option Int)
    (h : env envVarName = none)
    (hs : so.defaultValue = some ds) (hn : no.defaultValue = some dn) :
    (EnvUtils.parseEnvAsStringOrNull env envVarName (some so)
        = (.ok ds, [⟨.warn, defaultUsedMsg envVarName (jsShowStrOpt ds)⟩])
      ∧ substrOf envVarName (defaultUsedMsg envVarName (jsShowStrOpt ds))
      ∧ substrOf (jsShowStrOpt ds) (defaultUsedMsg envVarName (jsShowStrOpt ds)))
  ∧ (EnvUtils.parseEnvAsNumberOrNull env envVarName (some no)
        = (.ok dn, [⟨.warn, defaultUsedMsg envVarName (jsShowNumOpt dn)⟩])
      ∧ substrOf envVarName (defaultUsedMsg envVarName (jsShowNumOpt dn))
      ∧ substrOf (jsShowNumOpt dn) (defaultUsedMsg envVarName (jsShowNumOpt dn))) := by
  refine ⟨⟨?_, substrOf_defaultUsed_name _ _, substrOf_defaultUsed_value _ _⟩,
          ⟨?_, substrOf_defaultUsed_name _ _, substrOf_defaultUsed_value _ _⟩⟩
  · simp [EnvUtils.parseEnvAsStringOrNull, h, hs]
  · simp [EnvUtils.parseEnvAsNumberOrNull, h, hn]

/-- Witness for C3 at `PORT` absent with string default `"h"` and numeric
default `8080`. -/
theorem C3_default_used_witness :
    (EnvUtils.parseEnvAsStringOrNull (fun _ => none) "PORT" (some ⟨some (some "h"), none⟩)
        = (.ok (some "h"), [⟨.warn, defaultUsedMsg "PORT" (jsShowStrOpt (some "h"))⟩])
      ∧ substrOf "PORT" (defaultUsedMsg "PORT" (jsShowStrOpt (some "h")))
      ∧ substrOf (jsShowStrOpt (some "h")) (defaultUsedMsg "PORT" (jsShowStrOpt (some "h"))))
  ∧ (EnvUtils.parseEnvAsNumberOrNull (fun _ => none) "PORT" (some ⟨some (some 8080), none, none⟩)
        = (.ok (some 8080), [⟨.warn, defaultUsedMsg "PORT" (jsShowNumOpt (some 8080))⟩])
      ∧ substrOf "PORT" (defaultUsedMsg "PORT" (jsShowNumOpt (some 8080)))
      ∧ substrOf (jsShowNumOpt (some 8080)) (defaultUsedMsg "PORT" (jsShowNumOpt (some 8080)))) :=
  C3_default_used (fun _ => none) "PORT" ⟨some (some "h"), none⟩ ⟨some (some 8080), none, none⟩
    (some "h") (some 8080) rfl rfl rfl

/-- Claim C4: for a string or numeric spec without a configured default
(options absent, or their `defaultValue` undefined), an absent variable
fails with the must-be-defined error — whose message contains the variable
name — and emits no notification. -/
theorem C4_missing_required (env : RawEnv) (envVarName : String)
    (so : Option EnvUtils.StrOptions) (no : Option EnvUtils.NumOptions)
    (h : env envVarName = none)
    (hs : (so.bind fun o => o.defaultValue) = none)
    (hn : (no.bind fun o => o.defaultValue) = none) :
    (EnvUtils.parseEnvAsStringOrNull env envVarName so
        = (.error (mustBeDefinedMsg envVarName), [])
      ∧ EnvUtils.parseEnvAsNumberOrNull env envVarName no
        = (.error (mustBeDefinedMsg envVarName), []))
  ∧ substrOf envVarName (mustBeDefinedMsg envVarName) := by
  refine ⟨⟨?_, ?_⟩, substrOf_mustBeDefined_name envVarName⟩
  · cases so with
    | none => simp [EnvUtils.parseEnvAsStringOrNull, h]
    | some o =>
      simp only [Option.some_bind] at hs
      simp [EnvUtils.parseEnvAsStringOrNull, h, hs]
  · cases no with
    | none => simp [EnvUtils.parseEnvAsNumberOrNull, h]
    | some o =>
      simp only [Option.some_bind] at hn
      simp [EnvUtils.parseEnvAsNumberOrNull, h, hn]

/-- Witness for C4 at `SESSION_SECRET` absent with no options at all. -/
theorem C4_missing_required_witness :
    (EnvUtils.parseEnvAsStringOrNull (fun _ => none) "SESSION_SECRET" none
        = (.error (mustBeDefinedMsg "SESSION_SECRET"), [])
      ∧ EnvUtils.parseEnvAsNumberOrNull (fun _ => none) "SESSION_SECRET" none
        = (.error (mustBeDefinedMsg "SESSION_SECRET"), []))
  ∧ substrOf "SESSION_SECRET" (mustBeDefinedMsg "SESSION_SECRET") :=
  C4_missing_required (fun _ => none) "SESSION_SECRET" none none rfl rfl rfl

/-- Claim C5: with an allowed set configured, a present value outside the
set fails with the unsupported-value error and emits exactly one
error-severity notification, while a present value inside the set is
returned unchanged with no notification. -/
theorem C5_allowed_set (env : RawEnv) (envVarName raw : String)
    (o : EnvUtils.StrOptions) (allowed : List String)
    (h : env envVarName = some raw) (ha : o.allowed = some allowed) :
    (allowed.contains raw = false →
      EnvUtils.parseEnvAsStringOrNull env envVarName (some o)
        = (.error (unsupportedMsg raw), [⟨.error, unsupportedMsg raw⟩]))
  ∧ (allowed.contains raw = true →
      EnvUtils.parseEnvAsStringOrNull env envVarName (some o)
        = (.ok (some raw), [])) := by
  constructor <;> intro hc <;>
    simp [EnvUtils.parseEnvAsStringOrNull, h, ha, hc] <;>
    simpa using hc

/-- Witness for C5 at `NODE_ENV=staging` against the repository's allowed
set: fails with the unsupported-value error and one error notification. -/
theorem C5_allowed_set_witness :
    EnvUtils.parseEnvAsStringOrNull (fun n => if n = "NODE_ENV" then some "staging" else none)
        "NODE_ENV" (some ⟨none, some ["development", "production", "test"]⟩)
      = (.error (unsupportedMsg "staging"), [⟨.error, unsupportedMsg "staging"⟩]) :=
  (C5_allowed_set _ "NODE_ENV" "staging" ⟨none, some ["development", "production", "test"]⟩
    ["development", "production", "test"] (by decide) rfl).1 (by decide)

/-- Claim C6: for a present raw value that parses to `v`, a configured
minimum with `v` below it fails with the below-minimum error; otherwise a
configured maximum with `v` above it fails with the above-maximum error;
otherwise `v` is returned. -/
theorem C6_bounds (env : RawEnv) (envVarName raw : String)
    (o : EnvUtils.NumOptions) (v : Int)
    (h : env envVarName = some raw) (hp : jsParseInt raw = some v) :
    (∀ m, o.min = some m → v < m →
      EnvUtils.parseEnvAsNumberOrNull env envVarName (some o)
        = (.error (belowMinMsg envVarName raw m), []))
  ∧ (∀ M, o.max = some M → (∀ m, o.min = some m → m ≤ v) → M < v →
      EnvUtils.parseEnvAsNumberOrNull env envVarName (some o)
        = (.error (aboveMaxMsg envVarName raw M), []))
  ∧ ((∀ m, o.min = some m → m ≤ v) → (∀ M, o.max = some M → v ≤ M) →
      EnvUtils.parseEnvAsNumberOrNull env envVarName (some o)
        = (.ok (some v), [])) := by
  refine ⟨?_, ?_, ?_⟩
  · intro m hm hv
    simp [EnvUtils.parseEnvAsNumberOrNull, h, hp, boundMsg?, hm, hv]
  · intro M hM hmin hv
    cases ho : o.min with
    | none => simp [EnvUtils.parseEnvAsNumberOrNull, h, hp, boundMsg?, ho, hM, hv]
    | some m =>
      have h1 : ¬ v < m := not_lt.mpr (hmin m ho)
      simp [EnvUtils.parseEnvAsNumberOrNull, h, hp, boundMsg?, ho, hM, h1, hv]
  · intro hmin hmax
    cases ho : o.min with
    | none =>
      cases hM : o.max with
      | none => simp [EnvUtils.parseEnvAsNumberOrNull, h, hp, boundMsg?, ho, hM]
      | some M =>
        have h2 : ¬ M < v := not_lt.mpr (hmax M hM)
        simp [EnvUtils.parseEnvAsNumberOrNull, h, hp, boundMsg?, ho, hM, h2]
    | some m =>
      have h1 : ¬ v < m := not_lt.mpr (hmin m ho)
      cases hM : o.max with
      | none => simp [EnvUtils.parseEnvAsNumberOrNull, h, hp, boundMsg?, ho, hM, h1]
      | some M =>
        have h2 : ¬ M < v := not_lt.mpr (hmax M hM)
        simp [EnvUtils.parseEnvAsNumberOrNull, h, hp, boundMsg?, ho, hM, h1, h2]

/-- Witness for C6: the spec's scenario `{PORT: "99999"}` with
`{max: 65535}` fails with the above-maximum error. -/
theorem C6_bounds_witness :
    EnvUtils.parseEnvAsNumberOrNull (fun n => if n = "PORT" then some "99999" else none)
        "PORT" (some ⟨none, some 65535, none⟩)
      = (.error (aboveMaxMsg "PORT" "99999" 65535), []) :=
  (C6_bounds _ "PORT" "99999" ⟨none, some 65535, none⟩ 99999 (by decide) (by decide)).2.1
    65535 rfl (fun m hm => Option.noConfusion hm) (by decide)

/-- Claim C7 (code bug): the allowed-set failure path throws an error whose
message hardcodes `NODE_ENV` instead of interpolating the resolved
variable's name, so for `SERVER_MODE=staging` with an allowed set the
terminal error does not identify the offending variable. -/
theorem C7_invalid_value_message :
    EnvUtils.parseEnvAsStringOrNull
        (fun n => if n = "SERVER_MODE" then some "staging" else none) "SERVER_MODE"
        (some ⟨none, some ["development", "production", "test"]⟩)
      = (.error (unsupportedMsg "staging"), [⟨.error, unsupportedMsg "staging"⟩])
  ∧ ¬ substrOf "SERVER_MODE" (unsupportedMsg "staging") :=
  ⟨rfl, by decide⟩

/-- Claim C8: the two historical numeric resolvers diverge on parse
failure: with `PORT=abc`, the current `envUtils.ts` version fails with the
not-a-number error, while the `part_000` version's `value == null` guard
misses `NaN` and it returns `NaN` successfully. -/
theorem C8_resolvers_diverge :
    EnvUtils.parseEnvAsNumber (fun n => if n = "PORT" then some "abc" else none)
        "PORT" none
      = (.error (notANumberMsg "PORT" "abc"), [])
  ∧ Part000.parseEnvAsNumber (fun n => if n = "PORT" then some "abc" else none)
        "PORT" ⟨none, none, none⟩
      = (.ok none, []) :=
  ⟨rfl, rfl⟩

/-- Claim C9: each resolution is a pure function of the looked-up raw
value and the field spec: two environments agreeing on the resolved
variable give identical results (same value or error, same
notifications), for the string and the numeric resolver alike. -/
theorem C9_purity (env1 env2 : RawEnv) (envVarName : String)
    (so : Option EnvUtils.StrOptions) (no : Option EnvUtils.NumOptions)
    (h : env1 envVarName = env2 envVarName) :
    (EnvUtils.parseEnvAsStringOrNull env1 envVarName so
       = EnvUtils.parseEnvAsStringOrNull env2 envVarName so)
  ∧ (EnvUtils.parseEnvAsNumberOrNull env1 envVarName no
       = EnvUtils.parseEnvAsNumberOrNull env2 envVarName no) := by
  constructor
  · unfold EnvUtils.parseEnvAsStringOrNull
    rw [h]
  · unfold EnvUtils.parseEnvAsNumberOrNull
    rw [h]

/-- Witness for C9: two different environments that agree on `HOST`
resolve `HOST` identically. -/
theorem C9_purity_witness :
    (EnvUtils.parseEnvAsStringOrNull (fun _ => some "a") "HOST" none
       = EnvUtils.parseEnvAsStringOrNull (fun n => if n = "HOST" then some "a" else none) "HOST" none)
  ∧ (EnvUtils.parseEnvAsNumberOrNull (fun _ => some "a") "HOST" none
       = EnvUtils.parseEnvAsNumberOrNull (fun n => if n = "HOST" then some "a" else none) "HOST" none) :=
  C9_purity _ _ "HOST" none none (by decide)

/-- Claim C10: a string spec with both a configured default and an allowed
set returns the default when the variable is absent, with only the
default-used warning — membership of the default in the allowed set is
never checked (the conclusion does not depend on the `allowed` field).
Both the current and the `part_000` string resolvers behave this way. -/
theorem C10_string_default_bypasses_allowed (env : RawEnv) (envVarName : String)
    (so : EnvUtils.StrOptions) (ds : Option String)
    (po : Part000.StrOptions) (dp : String)
    (h : env envVarName = none)
    (hs : so.defaultValue = some ds) (hp : po.defaultValue = some dp) :
    EnvUtils.parseEnvAsStringOrNull env envVarName (some so)
      = (.ok ds, [⟨.warn, defaultUsedMsg envVarName (jsShowStrOpt ds)⟩])
  ∧ Part000.parseEnvAsString env envVarName (some po)
      = (.ok dp, [⟨.warn, defaultUsedMsg envVarName dp⟩]) := by
  constructor
  · simp [EnvUtils.parseEnvAsStringOrNull, h, hs]
  · simp [Part000.parseEnvAsString, h, hp]

/-- Witness for C10: default `"staging"` outside the allowed set
`{development, production, test}` still resolves to `"staging"`. -/
theorem C10_string_default_bypasses_allowed_witness :
    EnvUtils.parseEnvAsStringOrNull (fun _ => none) "NODE_ENV"
        (some ⟨some (some "staging"), some ["development", "production", "test"]⟩)
      = (.ok (some "staging"), [⟨.warn, defaultUsedMsg "NODE_ENV" (jsShowStrOpt (some "staging"))⟩])
  ∧ Part000.parseEnvAsString (fun _ => none) "NODE_ENV"
        (some ⟨some "staging", some ["development", "production", "test"]⟩)
      = (.ok "staging", [⟨.warn, defaultUsedMsg "NODE_ENV" "staging"⟩]) :=
  C10_string_default_bypasses_allowed (fun _ => none) "NODE_ENV"
    ⟨some (some "staging"), some ["development", "production", "test"]⟩ (some "staging")
    ⟨some "staging", some ["development", "production", "test"]⟩ "staging" rfl rfl rfl
